import Mathlib

/-!
Verification development for the adaptive-bitrate controller and stream
constants of the apollo streaming host.

The C++ sources embedded here are `src/auto_bitrate.cpp` /
`src/auto_bitrate.h` (the `stream::auto_bitrate_controller_t` class),
`src/config.h` (the auto-bitrate settings and their defaults) and
`src/stream.h` (port constants and the session state enumeration).

Modelling conventions:
* `std::chrono::steady_clock::time_point` values are modelled as integer
  millisecond counts; `duration_cast<milliseconds>(a - b).count()` becomes
  integer subtraction.
* C++ `double`/`float` arithmetic is modelled over `ℚ`; all quantities the
  claims touch are exact small rationals, where the binary comparisons of
  the source and the rational comparisons agree.
* `static_cast<int>` / `static_cast<uint64_t>` on a floating value truncate
  toward zero; `truncQ` models that.
* The per-session entry of the `unordered_map<session_t*, session_state_t>`
  is modelled as an `Option session_state_t` passed explicitly: `none` means
  the session has no entry, `some st` that its entry is `st`.
-/

/-- Truncation toward zero of a rational, as C++ `static_cast` from a
floating value to an integer type does. -/
def truncQ (q : ℚ) : Int :=
  if 0 ≤ q then ⌊q⌋ else ⌈q⌉

/-- `config::auto_bitrate_settings_t` from `src/config.h`. -/
structure auto_bitrate_settings_t where
  min_kbps : Int
  max_kbps : Int
  adjustment_interval_ms : Int
  min_adjustment_pct : Int
  loss_severe_pct : Int
  loss_moderate_pct : Int
  loss_mild_pct : Int
  decrease_severe_pct : Int
  decrease_moderate_pct : Int
  decrease_mild_pct : Int
  increase_good_pct : Int
  good_stability_ms : Int
  increase_min_interval_ms : Int
  poor_status_cap_pct : Int
  max_bitrate_cap : Int
deriving DecidableEq, Repr

/-- Default auto-bitrate settings. The per-field defaults are the
initializers of the `auto_bitrate_*` members of `config::video_t` in
`src/config.h` (min 1 kbps, max 0, interval 3000 ms, min change 5 %,
loss thresholds 10/5/1 %, reductions 25/12/5 %, increase 5 %, stability
5000 ms, increase interval 3000 ms, poor cap 25 %).
Modelled from the spec: `config::get_auto_bitrate_settings` itself lives in
`config.cpp`, which is not among the sources; per the spec the server
bitrate cap (`max_bitrate_cap`, fed from `config::video.max_bitrate`) is
unset by default, so it is taken as 0 here. -/
def default_settings : auto_bitrate_settings_t where
  min_kbps := 1
  max_kbps := 0
  adjustment_interval_ms := 3000
  min_adjustment_pct := 5
  loss_severe_pct := 10
  loss_moderate_pct := 5
  loss_mild_pct := 1
  decrease_severe_pct := 25
  decrease_moderate_pct := 12
  decrease_mild_pct := 5
  increase_good_pct := 5
  good_stability_ms := 5000
  increase_min_interval_ms := 3000
  poor_status_cap_pct := 25
  max_bitrate_cap := 0

/-- The `monitor` sub-configuration of a session's `config_t`; only the
fields the controller reads (`bitrate`, `framerate`). -/
structure monitor_config_t where
  bitrate : Int
  framerate : Int
deriving DecidableEq, Repr

/-- The fields of `stream::session_t` (from `src/stream.h`) the auto-bitrate
controller reads. -/
structure session_t where
  auto_bitrate_enabled : Bool
  auto_bitrate_min_kbps : Int
  auto_bitrate_max_kbps : Int
  monitor : monitor_config_t
deriving DecidableEq, Repr

/-- `auto_bitrate_controller_t::session_state_t` from `src/auto_bitrate.h`.
Time points are integer milliseconds, `loss_percentage` is a rational. -/
structure session_state_t where
  last_reported_good_frame : Nat
  last_loss_stats_time : Int
  last_adjustment_time : Int
  last_successful_adjustment_time : Int
  session_start_time : Int
  loss_percentage : ℚ
  connection_status : Int
  current_bitrate_kbps : Int
  adjustment_count : Nat
deriving DecidableEq, Repr

/-- `auto_bitrate_controller_t::get_adjustment_factor` from
`src/auto_bitrate.cpp` (lines 294-343). Returns the multiplicative
adjustment factor for the session's bitrate. In the good-loss branch the
source returns `1.0` directly (before the POOR override) when stability or
an OKAY status is missing; this is modelled by the `Option` intermediate:
`none` is that early return. -/
def get_adjustment_factor (state : session_state_t) (now : Int)
    (settings : auto_bitrate_settings_t) : ℚ :=
  let severe_threshold := max 0 settings.loss_severe_pct
  let moderate_threshold := max 0 settings.loss_moderate_pct
  let mild_threshold := max 0 settings.loss_mild_pct
  let severe_reduction_pct := max 0 settings.decrease_severe_pct
  let moderate_reduction_pct := max 0 settings.decrease_moderate_pct
  let mild_reduction_pct := max 0 settings.decrease_mild_pct
  let increase_pct := max 0 settings.increase_good_pct
  let poor_status_cap_pct := max 0 settings.poor_status_cap_pct
  let time_since_last_adjustment := now - state.last_adjustment_time
  let base : Option ℚ :=
    if state.loss_percentage > (severe_threshold : ℚ) then
      some (1 - (severe_reduction_pct : ℚ) / 100)
    else if state.loss_percentage > (moderate_threshold : ℚ) then
      some (1 - (moderate_reduction_pct : ℚ) / 100)
    else if state.loss_percentage > (mild_threshold : ℚ) then
      some (1 - (mild_reduction_pct : ℚ) / 100)
    else if time_since_last_adjustment ≥ settings.good_stability_ms ∧
        state.connection_status = 0 then
      some (1 + (increase_pct : ℚ) / 100)
    else
      none
  match base with
  | none => 1
  | some f0 =>
    let f1 := if state.connection_status = 1 then
        min f0 (1 - (poor_status_cap_pct : ℚ) / 100)
      else f0
    if f1 > 1 ∧ time_since_last_adjustment < settings.increase_min_interval_ms then
      1
    else f1

/-- `auto_bitrate_controller_t::should_adjust_bitrate` from
`src/auto_bitrate.cpp` (lines 67-110). `stateOpt` is the session's entry in
the controller's `session_states` map, if any. -/
def should_adjust_bitrate (session : session_t) (stateOpt : Option session_state_t)
    (now : Int) (settings : auto_bitrate_settings_t) : Bool :=
  if !session.auto_bitrate_enabled then false
  else
    match stateOpt with
    | none => false
    | some state =>
      let time_since_last_adjustment := now - state.last_adjustment_time
      let min_interval_ms :=
        if settings.adjustment_interval_ms ≤ 0 then 3000
        else settings.adjustment_interval_ms
      if time_since_last_adjustment < min_interval_ms then false
      else
        let adjustment_factor := get_adjustment_factor state now settings
        let min_adjustment_pct :=
          if settings.min_adjustment_pct < 0 then 5 else settings.min_adjustment_pct
        let min_adjustment_factor : ℚ := (min_adjustment_pct : ℚ) / 100
        if (min_adjustment_pct = 0 ∧ adjustment_factor = 1) ∨
            (min_adjustment_pct > 0 ∧ |adjustment_factor - 1| < min_adjustment_factor) then
          false
        else true

/-- `auto_bitrate_controller_t::clamp_bitrate` from `src/auto_bitrate.cpp`
(lines 345-353). -/
def clamp_bitrate (bitrate min_bitrate max_bitrate : Int) : Int :=
  if bitrate < min_bitrate then min_bitrate
  else if bitrate > max_bitrate then max_bitrate
  else bitrate

/-- The final normalization steps of the bounds computation in
`auto_bitrate_controller_t::calculate_new_bitrate`
(`src/auto_bitrate.cpp` lines 178-189): force min ≤ max, then floor both
bounds at 1 kbps. -/
def normalize_bounds (min_bitrate max_bitrate : Int) : Int × Int :=
  let min_bitrate1 := if min_bitrate > max_bitrate then max_bitrate else min_bitrate
  let min_bitrate2 := if min_bitrate1 < 1 then 1 else min_bitrate1
  let max_bitrate1 := if max_bitrate < 1 then 1 else max_bitrate
  (min_bitrate2, max_bitrate1)

/-- The effective `(min_bitrate, max_bitrate)` bounds computed inside
`auto_bitrate_controller_t::calculate_new_bitrate`
(`src/auto_bitrate.cpp` lines 129-189): client-provided bounds as base,
clamped by server configuration, normalized so that min ≤ max and both
are at least 1 kbps. -/
def effective_bounds (session : session_t) (settings : auto_bitrate_settings_t) :
    Int × Int :=
  let client_min := if session.auto_bitrate_min_kbps > 0 then session.auto_bitrate_min_kbps else 0
  let client_max := if session.auto_bitrate_max_kbps > 0 then session.auto_bitrate_max_kbps else 0
  let server_min := if settings.min_kbps ≤ 0 then 1 else settings.min_kbps
  let server_max :=
    if settings.max_kbps ≤ 0 then
      if settings.max_bitrate_cap > 0 then settings.max_bitrate_cap else 0
    else
      if settings.max_bitrate_cap > 0 ∧ settings.max_bitrate_cap < settings.max_kbps then
        settings.max_bitrate_cap
      else settings.max_kbps
  let min_bitrate0 := if client_min > 0 then client_min else server_min
  let min_bitrate1 :=
    if server_min > 0 ∧ min_bitrate0 < server_min then server_min else min_bitrate0
  let max_bitrate0 :=
    if client_max > 0 then
      if server_max > 0 ∧ client_max > server_max then server_max else client_max
    else if server_max > 0 then server_max
    else if session.monitor.bitrate < 1 then 1000 else session.monitor.bitrate
  normalize_bounds min_bitrate1 max_bitrate0

/-- `auto_bitrate_controller_t::calculate_new_bitrate` from
`src/auto_bitrate.cpp` (lines 112-198), for a non-null session.
When the feature is disabled or the session has no controller state, the
session's configured monitor bitrate is returned unchanged; otherwise the
current bitrate is scaled by the adjustment factor (truncating toward zero,
as `static_cast<int>` does) and clamped into the effective bounds. -/
def calculate_new_bitrate (session : session_t) (stateOpt : Option session_state_t)
    (now : Int) (settings : auto_bitrate_settings_t) : Int :=
  if !session.auto_bitrate_enabled then session.monitor.bitrate
  else
    match stateOpt with
    | none => session.monitor.bitrate
    | some state =>
      let adjustment_factor := get_adjustment_factor state now settings
      let new_bitrate := truncQ ((state.current_bitrate_kbps : ℚ) * adjustment_factor)
      let bounds := effective_bounds session settings
      clamp_bitrate new_bitrate bounds.1 bounds.2

/-- `calculate_new_bitrate` including the null-session entry: the C++ guard
`if (!session || !session->auto_bitrate_enabled) return
session->config.monitor.bitrate;` dereferences `session` in its own return
expression, so the null branch is an error (undefined behaviour), not a
defined value. -/
def calculate_new_bitrate_checked (sessionOpt : Option session_t)
    (stateOpt : Option session_state_t) (now : Int)
    (settings : auto_bitrate_settings_t) : Except Unit Int :=
  match sessionOpt with
  | none => Except.error ()
  | some session => Except.ok (calculate_new_bitrate session stateOpt now settings)

/-- `auto_bitrate_controller_t::get_or_create_state` from
`src/auto_bitrate.cpp` (lines 355-369): returns the existing map entry, or
a fresh state initialized with the session's configured monitor bitrate and
all timestamps set to `now`. -/
def get_or_create_state (session : session_t) (stateOpt : Option session_state_t)
    (now : Int) : session_state_t :=
  match stateOpt with
  | some st => st
  | none =>
    { last_reported_good_frame := 0
      last_loss_stats_time := now
      last_adjustment_time := now
      last_successful_adjustment_time := now
      session_start_time := now
      loss_percentage := 0
      connection_status := 0
      current_bitrate_kbps := session.monitor.bitrate
      adjustment_count := 0 }

/-- `auto_bitrate_controller_t::confirm_bitrate_change` from
`src/auto_bitrate.cpp` (lines 200-225): always records `now` as the last
adjustment time; only on success with an actually different bitrate does it
update the current bitrate, the adjustment count and the last successful
adjustment time. Returns the session's new map entry. -/
def confirm_bitrate_change (session : session_t) (stateOpt : Option session_state_t)
    (new_bitrate_kbps : Int) (success : Bool) (now : Int) : Option session_state_t :=
  if !session.auto_bitrate_enabled then stateOpt
  else
    let state0 := get_or_create_state session stateOpt now
    let state1 := { state0 with last_adjustment_time := now }
    let state2 :=
      if success ∧ new_bitrate_kbps ≠ state1.current_bitrate_kbps then
        { state1 with
          adjustment_count := state1.adjustment_count + 1
          current_bitrate_kbps := new_bitrate_kbps
          last_successful_adjustment_time := now }
      else state1
    some state2

/-- `auto_bitrate_controller_t::process_loss_stats_direct` from
`src/auto_bitrate.cpp` (lines 41-55): stores the client-computed loss
percentage and last good frame verbatim. -/
def process_loss_stats_direct (session : session_t) (stateOpt : Option session_state_t)
    (loss_percentage_loss_pct : ℚ) (lastGoodFrame : Nat) (now : Int) :
    Option session_state_t :=
  if !session.auto_bitrate_enabled then stateOpt
  else
    let state := get_or_create_state session stateOpt now
    some { state with
      loss_percentage := loss_percentage_loss_pct
      last_reported_good_frame := lastGoodFrame
      last_loss_stats_time := now }

/-- The framerate normalization of `compute_loss_percentage`
(`src/auto_bitrate.cpp` lines 268-271): values above 1000 are millifps and
divided by 1000. -/
def effective_framerate (framerate : Int) : ℚ :=
  if (framerate : ℚ) > 1000 then (framerate : ℚ) / 1000 else (framerate : ℚ)

/-- Expected frame count over the reporting interval
(`src/auto_bitrate.cpp` line 274): framerate (fps) times the interval in
seconds. -/
def expected_frames_of (framerate time_interval_ms : Int) : ℚ :=
  effective_framerate framerate * ((time_interval_ms : ℚ) / 1000)

/-- Expected current frame number (`src/auto_bitrate.cpp` line 275): the
baseline plus the truncated expected frame count. -/
def expected_current_frame_of (last_reported_good_frame : Nat)
    (framerate time_interval_ms : Int) : Nat :=
  last_reported_good_frame + (truncQ (expected_frames_of framerate time_interval_ms)).toNat

/-- `auto_bitrate_controller_t::compute_loss_percentage` from
`src/auto_bitrate.cpp` (lines 251-292): loss is the deficit between the
expected current frame and the client's last good frame, as a percentage of
the expected frames over the interval; 0 when there is no map entry, no
baseline, or no positive expected frame count. -/
def compute_loss_percentage (session : session_t) (stateOpt : Option session_state_t)
    (lastGoodFrame : Nat) (time_interval_ms : Int) : ℚ :=
  match stateOpt with
  | none => 0
  | some state =>
    if state.last_reported_good_frame = 0 then 0
    else
      let expected_frames := expected_frames_of session.monitor.framerate time_interval_ms
      let expected_current_frame :=
        expected_current_frame_of state.last_reported_good_frame
          session.monitor.framerate time_interval_ms
      let loss_count : Int :=
        if lastGoodFrame < expected_current_frame then
          (expected_current_frame : Int) - (lastGoodFrame : Int)
        else 0
      if expected_frames ≤ 0 then 0
      else ((loss_count : ℚ) / expected_frames) * 100

/-- `auto_bitrate_controller_t::process_loss_stats` from
`src/auto_bitrate.cpp` (lines 21-39): derives the loss percentage from the
previous baseline (the state as it stands after `get_or_create_state`, i.e.
before the new frame number is stored), then records the new baseline and
report time. -/
def process_loss_stats (session : session_t) (stateOpt : Option session_state_t)
    (lastGoodFrame : Nat) (time_interval_ms : Int) (now : Int) :
    Option session_state_t :=
  if !session.auto_bitrate_enabled then stateOpt
  else
    let state := get_or_create_state session stateOpt now
    let loss := compute_loss_percentage session (some state) lastGoodFrame time_interval_ms
    some { state with
      loss_percentage := loss
      last_reported_good_frame := lastGoodFrame
      last_loss_stats_time := now }

/-- `stream::VIDEO_STREAM_PORT` from `src/stream.h` (line 44). -/
def VIDEO_STREAM_PORT : Int := 9

/-- `stream::CONTROL_PORT` from `src/stream.h` (line 45). -/
def CONTROL_PORT : Int := 10

/-- `stream::AUDIO_STREAM_PORT` from `src/stream.h` (line 46). -/
def AUDIO_STREAM_PORT : Int := 11

/-- Modelled from the spec: each plane's UDP port is the configured base
port plus the plane's constant offset (`map_port` lives in `stream.cpp`,
which is not among the sources; spec §6 fixes the offsets). -/
def videoPort (base : Int) : Int := base + VIDEO_STREAM_PORT

/-- Modelled from the spec: control-plane port from the base port. -/
def controlPort (base : Int) : Int := base + CONTROL_PORT

/-- Modelled from the spec: audio-plane port from the base port. -/
def audioPort (base : Int) : Int := base + AUDIO_STREAM_PORT

/-- `stream::session::state_e` from `src/stream.h` (lines 283-288), in its
declared order: `STOPPED, STOPPING, STARTING, RUNNING`. -/
inductive state_e where
  | STOPPED
  | STOPPING
  | STARTING
  | RUNNING
deriving DecidableEq, Repr

/-- The integer code of a `state_e` value, following the declared order of
the enumeration in `src/stream.h`. -/
def state_code : state_e → Int
  | state_e.STOPPED => 0
  | state_e.STOPPING => 1
  | state_e.STARTING => 2
  | state_e.RUNNING => 3

/-- Position of a state along the session lifecycle
STOPPED → STARTING → RUNNING → STOPPING (spec §4.1), with STOPPED the
initial stage. -/
def lifecycle_stage : state_e → Nat
  | state_e.STOPPED => 0
  | state_e.STARTING => 1
  | state_e.RUNNING => 2
  | state_e.STOPPING => 3

/-- Modelled from the spec: the session state transition relation of spec
§4.1 (`session::start` and the teardown path live in `stream.cpp`, which is
not among the sources). Edges: STOPPED → STARTING on start,
STARTING → RUNNING on peer attach, STARTING/RUNNING → STOPPING on shutdown,
timeout, fatal error or terminate, and STOPPING → STOPPED once all plane
tasks have joined. -/
def session_step : state_e → state_e → Prop
  | state_e.STOPPED, state_e.STARTING => True
  | state_e.STARTING, state_e.RUNNING => True
  | state_e.STARTING, state_e.STOPPING => True
  | state_e.RUNNING, state_e.STOPPING => True
  | state_e.STOPPING, state_e.STOPPED => True
  | _, _ => False

instance (a b : state_e) : Decidable (session_step a b) := by
  cases a <;> cases b <;> simp [session_step] <;> infer_instance

/-! Concrete scenario values used by the end-to-end theorems. -/

/-- Session of the severe-loss scenario: auto bitrate enabled, no client
bounds, configured bitrate 10000 kbps at 60 fps. -/
def sevSession : session_t :=
  { auto_bitrate_enabled := true
    auto_bitrate_min_kbps := 0
    auto_bitrate_max_kbps := 0
    monitor := { bitrate := 10000, framerate := 60 } }

/-- Controller state at session start for the severe-loss scenario:
current bitrate 10000 kbps, no loss yet, OKAY status, all clocks at 0. -/
def sevState0 : session_state_t :=
  { last_reported_good_frame := 0
    last_loss_stats_time := 0
    last_adjustment_time := 0
    last_successful_adjustment_time := 0
    session_start_time := 0
    loss_percentage := 0
    connection_status := 0
    current_bitrate_kbps := 10000
    adjustment_count := 0 }

/-- Controller state after `process_loss_stats_direct` reports 15 % loss at
t = 4000 ms in the severe-loss scenario. -/
def sevState1 : session_state_t :=
  { sevState0 with
    loss_percentage := 15
    last_reported_good_frame := 130
    last_loss_stats_time := 4000 }

/-- Controller state after `confirm_bitrate_change(7500, true)` at
t = 4000 ms in the severe-loss scenario. -/
def sevState2 : session_state_t :=
  { sevState1 with
    last_adjustment_time := 4000
    adjustment_count := 1
    current_bitrate_kbps := 7500
    last_successful_adjustment_time := 4000 }

/-- A controller state with zero loss and POOR connection status (the
boundary case of the poor-status clamp). -/
def poorIdleState : session_state_t :=
  { sevState0 with connection_status := 1 }

/-- Session of the client-max clamping scenario: client bounds 2000..6000. -/
def clampSession : session_t :=
  { auto_bitrate_enabled := true
    auto_bitrate_min_kbps := 2000
    auto_bitrate_max_kbps := 6000
    monitor := { bitrate := 5000, framerate := 60 } }

/-- Settings of the client-max clamping scenario: server minimum 500 kbps,
no server maximum and no server cap. -/
def clampSettings : auto_bitrate_settings_t :=
  { default_settings with min_kbps := 500 }

/-- Session of the V1 loss-computation scenario: 60 fps. -/
def lossSession : session_t :=
  { auto_bitrate_enabled := true
    auto_bitrate_min_kbps := 0
    auto_bitrate_max_kbps := 0
    monitor := { bitrate := 10000, framerate := 60 } }

/-- Controller state of the V1 loss-computation scenario: baseline frame
100. -/
def lossState : session_state_t :=
  { sevState0 with last_reported_good_frame := 100 }

/-! Helper lemmas shared by the claim theorems. -/

/-- The normalized bounds are at least 1 kbps each, with min ≤ max. -/
theorem normalize_bounds_props (min_bitrate max_bitrate : Int) :
    1 ≤ (normalize_bounds min_bitrate max_bitrate).1 ∧
      (normalize_bounds min_bitrate max_bitrate).1 ≤
        (normalize_bounds min_bitrate max_bitrate).2 ∧
      1 ≤ (normalize_bounds min_bitrate max_bitrate).2 := by
  unfold normalize_bounds
  dsimp only
  split_ifs <;> omega

/-- The effective bounds are normalized: at least 1 kbps each and min ≤ max. -/
theorem effective_bounds_normalized (session : session_t)
    (settings : auto_bitrate_settings_t) :
    1 ≤ (effective_bounds session settings).1 ∧
      (effective_bounds session settings).1 ≤ (effective_bounds session settings).2 ∧
      1 ≤ (effective_bounds session settings).2 := by
  unfold effective_bounds
  exact normalize_bounds_props _ _

/-- `clamp_bitrate` lands in the interval whenever the interval is
nonempty. -/
theorem clamp_bitrate_mem (bitrate min_bitrate max_bitrate : Int)
    (h : min_bitrate ≤ max_bitrate) :
    min_bitrate ≤ clamp_bitrate bitrate min_bitrate max_bitrate ∧
      clamp_bitrate bitrate min_bitrate max_bitrate ≤ max_bitrate := by
  unfold clamp_bitrate
  split_ifs <;> omega

/-- `should_adjust_bitrate` is false whenever the pacing interval has not
elapsed. -/
theorem should_adjust_gate_closed (session : session_t) (st : session_state_t)
    (now : Int) (settings : auto_bitrate_settings_t)
    (h : now - st.last_adjustment_time <
      (if settings.adjustment_interval_ms ≤ 0 then 3000 else settings.adjustment_interval_ms)) :
    should_adjust_bitrate session (some st) now settings = false := by
  unfold should_adjust_bitrate
  cases hE : session.auto_bitrate_enabled <;> simp [hE]
  intro hgate
  exact absurd h (by omega)

/-- C10: the UDP port offsets of the three planes from the configured base
port are video = base + 9, control = base + 10 and audio = base + 11, as
fixed by `VIDEO_STREAM_PORT`, `CONTROL_PORT` and `AUDIO_STREAM_PORT` in
`src/stream.h`. -/
theorem C10_port_offsets :
    VIDEO_STREAM_PORT = 9 ∧ CONTROL_PORT = 10 ∧ AUDIO_STREAM_PORT = 11 ∧
      ∀ base : Int,
        videoPort base = base + 9 ∧ controlPort base = base + 10 ∧
          audioPort base = base + 11 := by
  refine ⟨rfl, rfl, rfl, fun base => ⟨rfl, rfl, rfl⟩⟩

/-- C9: `calculate_new_bitrate` is not null-safe: its guard branch itself
reads `session->config.monitor.bitrate`, so in the total embedding the
null-session input lands in the error branch; for every non-null session
with the feature disabled, or with no recorded controller state, it returns
the session's configured monitor bitrate. -/
theorem C9_null_guard_and_passthrough :
    ∀ (stateOpt : Option session_state_t) (now : Int)
      (settings : auto_bitrate_settings_t) (session : session_t),
      calculate_new_bitrate_checked none stateOpt now settings = Except.error () ∧
      (session.auto_bitrate_enabled = false →
        calculate_new_bitrate_checked (some session) stateOpt now settings =
          Except.ok session.monitor.bitrate) ∧
      calculate_new_bitrate_checked (some session) none now settings =
        Except.ok session.monitor.bitrate := by
  intro stateOpt now settings session
  refine ⟨rfl, ?_, ?_⟩
  · intro hdis
    simp [calculate_new_bitrate_checked, calculate_new_bitrate, hdis]
  · cases hE : session.auto_bitrate_enabled <;>
      simp [calculate_new_bitrate_checked, calculate_new_bitrate, hE]

/-- C9 witness: the theorem instantiated at a concrete disabled session and
a concrete stored state. -/
theorem C9_witness :
    calculate_new_bitrate_checked none (some sevState0) 0 default_settings =
        Except.error () ∧
      calculate_new_bitrate_checked
          (some { sevSession with auto_bitrate_enabled := false }) (some sevState0) 0
          default_settings =
        Except.ok ({ sevSession with auto_bitrate_enabled := false }).monitor.bitrate ∧
      calculate_new_bitrate_checked (some sevSession) none 0 default_settings =
        Except.ok sevSession.monitor.bitrate := by
  obtain ⟨h1, h2, h3⟩ :=
    C9_null_guard_and_passthrough (some sevState0) 0 default_settings
      { sevSession with auto_bitrate_enabled := false }
  obtain ⟨-, -, h3'⟩ :=
    C9_null_guard_and_passthrough none 0 default_settings sevSession
  exact ⟨h1, h2 rfl, h3'⟩

/-- C8: the session lifecycle step relation STOPPED → STARTING → RUNNING →
STOPPING → STOPPED admits no transition back to an earlier lifecycle stage
(the only stage-decreasing edge is the terminal STOPPING → STOPPED), and
the declared order of the `state_e` enumeration in `src/stream.h` codes
STOPPED, STOPPING, STARTING, RUNNING as 0, 1, 2, 3. -/
theorem C8_lifecycle_monotone :
    (∀ a b : state_e, session_step a b →
        lifecycle_stage a < lifecycle_stage b ∨
          (a = state_e.STOPPING ∧ b = state_e.STOPPED)) ∧
      (¬ session_step state_e.RUNNING state_e.STARTING) ∧
      (¬ session_step state_e.STOPPING state_e.STARTING) ∧
      (¬ session_step state_e.STOPPING state_e.RUNNING) ∧
      (¬ session_step state_e.STARTING state_e.STOPPED) ∧
      (¬ session_step state_e.RUNNING state_e.STOPPED) ∧
      state_code state_e.STOPPED = 0 ∧ state_code state_e.STOPPING = 1 ∧
      state_code state_e.STARTING = 2 ∧ state_code state_e.RUNNING = 3 := by
  refine ⟨?_, ?_, ?_, ?_, ?_, ?_, rfl, rfl, rfl, rfl⟩
  · intro a b h
    cases a <;> cases b <;> simp_all [session_step, lifecycle_stage]
  all_goals simp [session_step]

/-- C8 witness: the stage-advance property instantiated at the
STARTING → RUNNING edge. -/
theorem C8_witness :
    lifecycle_stage state_e.STARTING < lifecycle_stage state_e.RUNNING ∨
      (state_e.STARTING = state_e.STOPPING ∧ state_e.RUNNING = state_e.STOPPED) :=
  C8_lifecycle_monotone.1 state_e.STARTING state_e.RUNNING (by simp [session_step])

/-- C2: severe-loss end-to-end scenario under default settings: starting
from current bitrate 10000 kbps, `process_loss_stats_direct` reporting 15 %
loss with OKAY status at t = 4000 ms (more than the 3000 ms interval after
the last adjustment at t = 0) yields adjustment factor 0.75,
`calculate_new_bitrate` 7500, and `confirm_bitrate_change(7500, true)` sets
the current bitrate to 7500 with adjustment count 1. -/
theorem C2_severe_loss_scenario :
    process_loss_stats_direct sevSession (some sevState0) 15 130 4000 =
        some sevState1 ∧
      4000 - sevState1.last_adjustment_time >
        default_settings.adjustment_interval_ms ∧
      get_adjustment_factor sevState1 4000 default_settings = 3 / 4 ∧
      should_adjust_bitrate sevSession (some sevState1) 4000 default_settings = true ∧
      calculate_new_bitrate sevSession (some sevState1) 4000 default_settings = 7500 ∧
      confirm_bitrate_change sevSession (some sevState1) 7500 true 4000 =
        some sevState2 ∧
      sevState2.current_bitrate_kbps = 7500 ∧
      sevState2.adjustment_count = 1 := by
  refine ⟨rfl, by norm_num [sevState1, sevState0, default_settings], ?_, ?_, ?_, ?_, rfl, rfl⟩
  · norm_num [get_adjustment_factor, default_settings, sevState1, sevState0]
  · norm_num [should_adjust_bitrate, get_adjustment_factor, default_settings, sevState1,
      sevState0, sevSession, abs_of_nonneg, abs_of_nonpos]
  · norm_num [calculate_new_bitrate, get_adjustment_factor, effective_bounds,
      normalize_bounds, clamp_bitrate, truncQ, default_settings, sevState1, sevState0,
      sevSession]
  · norm_num [confirm_bitrate_change, get_or_create_state, sevSession, sevState2,
      sevState1, sevState0]

/-- C3: for every enabled session with controller state,
`calculate_new_bitrate` stays inside the effective bounds and never drops
below 1 kbps; with client bounds 2000..6000, server minimum 500, no server
cap and a raw adjusted value of 7500, the result is clamped to 6000. -/
theorem C3_calculate_new_bitrate_bounded :
    (∀ (session : session_t) (st : session_state_t) (now : Int)
        (settings : auto_bitrate_settings_t),
        session.auto_bitrate_enabled = true →
        (effective_bounds session settings).1 ≤
            calculate_new_bitrate session (some st) now settings ∧
          calculate_new_bitrate session (some st) now settings ≤
            (effective_bounds session settings).2 ∧
          1 ≤ calculate_new_bitrate session (some st) now settings) ∧
      effective_bounds clampSession clampSettings = (2000, 6000) ∧
      clamp_bitrate 7500 (effective_bounds clampSession clampSettings).1
          (effective_bounds clampSession clampSettings).2 = 6000 := by
  have hb : effective_bounds clampSession clampSettings = (2000, 6000) := by
    norm_num [effective_bounds, normalize_bounds, clampSession, clampSettings,
      default_settings]
  refine ⟨?_, hb, ?_⟩
  · intro session st now settings hE
    obtain ⟨h1, h2, h3⟩ := effective_bounds_normalized session settings
    have hcalc : calculate_new_bitrate session (some st) now settings =
        clamp_bitrate
          (truncQ ((st.current_bitrate_kbps : ℚ) * get_adjustment_factor st now settings))
          (effective_bounds session settings).1 (effective_bounds session settings).2 := by
      simp [calculate_new_bitrate, hE]
    obtain ⟨hm, hM⟩ :=
      clamp_bitrate_mem
        (truncQ ((st.current_bitrate_kbps : ℚ) * get_adjustment_factor st now settings))
        (effective_bounds session settings).1 (effective_bounds session settings).2 h2
    rw [hcalc]
    exact ⟨hm, hM, le_trans h1 hm⟩
  · rw [hb]
    decide

/-- C3 witness: the bounds property instantiated at the severe-loss
scenario's session and state. -/
theorem C3_witness :
    (effective_bounds sevSession default_settings).1 ≤
        calculate_new_bitrate sevSession (some sevState1) 4000 default_settings ∧
      calculate_new_bitrate sevSession (some sevState1) 4000 default_settings ≤
        (effective_bounds sevSession default_settings).2 ∧
      1 ≤ calculate_new_bitrate sevSession (some sevState1) 4000 default_settings :=
  C3_calculate_new_bitrate_bounded.1 sevSession sevState1 4000 default_settings rfl

/-- C4: whenever `should_adjust_bitrate` returns true for a stored state,
the pacing interval (3000 ms when the configured value is not positive) has
elapsed since the state's last adjustment time. -/
theorem C4_true_implies_interval_elapsed :
    ∀ (session : session_t) (st : session_state_t) (now : Int)
      (settings : auto_bitrate_settings_t),
      should_adjust_bitrate session (some st) now settings = true →
      now - st.last_adjustment_time ≥
        (if settings.adjustment_interval_ms ≤ 0 then 3000
         else settings.adjustment_interval_ms) := by
  intro session st now settings h
  by_contra hlt
  push_neg at hlt
  rw [should_adjust_gate_closed session st now settings hlt] at h
  exact Bool.false_ne_true h

/-- C4 witness: the interval guarantee instantiated at the severe-loss
scenario, where `should_adjust_bitrate` does return true. -/
theorem C4_witness :
    4000 - sevState1.last_adjustment_time ≥
      (if default_settings.adjustment_interval_ms ≤ 0 then 3000
       else default_settings.adjustment_interval_ms) :=
  C4_true_implies_interval_elapsed sevSession sevState1 4000 default_settings
    (by norm_num [should_adjust_bitrate, get_adjustment_factor, default_settings,
      sevState1, sevState0, sevSession, abs_of_nonneg, abs_of_nonpos])

/-- C6: `confirm_bitrate_change` stamps the call time as the last
adjustment time for any success flag; on failure the current bitrate, the
adjustment count and the last successful adjustment time are unchanged, and
a subsequent `should_adjust_bitrate` before the pacing interval has elapsed
returns false. -/
theorem C6_confirm_always_paces :
    ∀ (session : session_t) (st : session_state_t) (new_kbps now : Int)
      (success : Bool),
      session.auto_bitrate_enabled = true →
      (confirm_bitrate_change session (some st) new_kbps success now).map
          (fun s => s.last_adjustment_time) = some now ∧
        confirm_bitrate_change session (some st) new_kbps false now =
          some { st with last_adjustment_time := now } ∧
        ∀ (now2 : Int) (settings : auto_bitrate_settings_t),
          now2 - now <
            (if settings.adjustment_interval_ms ≤ 0 then 3000
             else settings.adjustment_interval_ms) →
          should_adjust_bitrate session (some { st with last_adjustment_time := now })
            now2 settings = false := by
  intro session st new_kbps now success hE
  refine ⟨?_, ?_, ?_⟩
  · cases success <;>
      [skip;
       by_cases hneq : new_kbps = ({ st with last_adjustment_time := now } :
         session_state_t).current_bitrate_kbps] <;>
      simp [confirm_bitrate_change, get_or_create_state, hE, *]
  · simp [confirm_bitrate_change, get_or_create_state, hE]
  · intro now2 settings hlt
    exact should_adjust_gate_closed session _ now2 settings hlt

/-- C6 witness: the pacing behaviour instantiated at the failed-reconfigure
scenario (`confirm(7500, false)` at t = 4000 ms, next query at t = 5000 ms
under default settings). -/
theorem C6_witness :
    (confirm_bitrate_change sevSession (some sevState0) 7500 true 4000).map
        (fun s => s.last_adjustment_time) = some 4000 ∧
      confirm_bitrate_change sevSession (some sevState0) 7500 false 4000 =
        some { sevState0 with last_adjustment_time := 4000 } ∧
      should_adjust_bitrate sevSession
          (some { sevState0 with last_adjustment_time := 4000 }) 5000
          default_settings = false := by
  obtain ⟨h1, h2, h3⟩ := C6_confirm_always_paces sevSession sevState0 7500 4000 true rfl
  exact ⟨h1, h2, h3 5000 default_settings (by norm_num [default_settings])⟩

/-- C1 counterexample: with zero loss and POOR status under default
settings, `get_adjustment_factor` returns exactly 1, which is not within
the claimed poor-status cap of 1 − 25/100 = 0.75: the good-loss branch
returns 1.0 before the POOR override is reached. -/
theorem C1_counterexample :
    get_adjustment_factor poorIdleState 10000 default_settings = 1 ∧
      ¬ (get_adjustment_factor poorIdleState 10000 default_settings ≤
          1 - ((default_settings.poor_status_cap_pct : Int) : ℚ) / 100) := by
  constructor <;>
    norm_num [get_adjustment_factor, default_settings, poorIdleState, sevState0]

/-- C1 amended: for every controller state with non-positive loss (in
particular zero loss, at or below every threshold) and POOR connection
status, `get_adjustment_factor` returns exactly 1.0 — the good-loss branch
returns early and the poor-status clamp is never applied there. -/
theorem C1_amended_poor_idle_factor_is_one :
    ∀ (state : session_state_t) (now : Int) (settings : auto_bitrate_settings_t),
      state.loss_percentage ≤ 0 → state.connection_status = 1 →
      get_adjustment_factor state now settings = 1 := by
  intro state now settings hloss hstat
  have hth : ∀ t : Int, ¬ (((max 0 t : Int) : ℚ) < state.loss_percentage) := by
    intro t hc
    have h0 : (0 : ℚ) ≤ ((max 0 t : Int) : ℚ) := by exact_mod_cast le_max_left 0 t
    linarith
  simp [get_adjustment_factor, hth, hstat, not_lt.mpr hloss]

/-- C1 witness: the amended claim instantiated at the zero-loss POOR
state. -/
theorem C1_witness :
    get_adjustment_factor poorIdleState 12345 default_settings = 1 :=
  C1_amended_poor_idle_factor_is_one poorIdleState 12345 default_settings
    (by norm_num [poorIdleState, sevState0]) (by norm_num [poorIdleState, sevState0])

/-- C7: `process_loss_stats`'s loss derivation: with a zero baseline the
loss is 0 regardless of the reported frame; with a baseline and a positive
expected frame count, the loss is 0 when the reported frame reaches the
expected frame, and otherwise the deficit over the expected frames times
100; framerates above 1000 are millifps and divided by 1000; at 60 fps over
1000 ms with baseline 100 and reported frame 130 the loss is 50 %. -/
theorem C7_loss_percentage_formula :
    (∀ (session : session_t) (st : session_state_t) (lastGoodFrame : Nat)
        (interval : Int),
        st.last_reported_good_frame = 0 →
        compute_loss_percentage session (some st) lastGoodFrame interval = 0) ∧
      (∀ (session : session_t) (st : session_state_t) (lastGoodFrame : Nat)
          (interval : Int),
          st.last_reported_good_frame ≠ 0 →
          0 < expected_frames_of session.monitor.framerate interval →
          (expected_current_frame_of st.last_reported_good_frame
                session.monitor.framerate interval ≤ lastGoodFrame →
              compute_loss_percentage session (some st) lastGoodFrame interval = 0) ∧
            (lastGoodFrame < expected_current_frame_of st.last_reported_good_frame
                session.monitor.framerate interval →
              compute_loss_percentage session (some st) lastGoodFrame interval =
                ((expected_current_frame_of st.last_reported_good_frame
                      session.monitor.framerate interval : ℚ) - (lastGoodFrame : ℚ)) /
                  expected_frames_of session.monitor.framerate interval * 100)) ∧
      (∀ framerate : Int, 1000 < framerate →
        effective_framerate framerate = (framerate : ℚ) / 1000) ∧
      compute_loss_percentage lossSession (some lossState) 130 1000 = 50 := by
  refine ⟨?_, ?_, ?_, ?_⟩
  · intro session st lastGoodFrame interval h
    simp [compute_loss_percentage, h]
  · intro session st lastGoodFrame interval hne hpos
    constructor
    · intro hge
      simp [compute_loss_percentage, hne, not_lt.mpr hge, not_le.mpr hpos]
    · intro hlt
      simp only [compute_loss_percentage]
      rw [if_neg hne, if_neg (not_le.mpr hpos), if_pos hlt]
      push_cast
      ring
  · intro framerate h
    have hc : (1000 : ℚ) < (framerate : ℚ) := by exact_mod_cast h
    simp [effective_framerate, hc]
  · norm_num [compute_loss_percentage, expected_current_frame_of, expected_frames_of,
      effective_framerate, truncQ, lossState, sevState0, lossSession,
      show (Int.toNat 60 = 60) from rfl]

/-- C7 witness: the formula instantiated at concrete inputs: zero baseline,
a caught-up client, a lagging client, and a millifps framerate. -/
theorem C7_witness :
    compute_loss_percentage lossSession (some sevState0) 999 1000 = 0 ∧
      compute_loss_percentage lossSession (some lossState) 200 1000 = 0 ∧
      compute_loss_percentage lossSession (some lossState) 130 1000 =
        ((expected_current_frame_of lossState.last_reported_good_frame
              lossSession.monitor.framerate 1000 : ℚ) - (130 : ℚ)) /
          expected_frames_of lossSession.monitor.framerate 1000 * 100 ∧
      effective_framerate 60000 = ((60000 : Int) : ℚ) / 1000 := by
  have hbase : lossState.last_reported_good_frame ≠ 0 := by
    norm_num [lossState, sevState0]
  have hpos : 0 < expected_frames_of lossSession.monitor.framerate 1000 := by
    norm_num [expected_frames_of, effective_framerate, lossSession]
  have hexp : expected_current_frame_of lossState.last_reported_good_frame
      lossSession.monitor.framerate 1000 = 160 := by
    norm_num [expected_current_frame_of, expected_frames_of, effective_framerate,
      truncQ, lossState, sevState0, lossSession, show (Int.toNat 60 = 60) from rfl]
  refine ⟨C7_loss_percentage_formula.1 lossSession sevState0 999 1000 rfl, ?_, ?_, ?_⟩
  · exact (C7_loss_percentage_formula.2.1 lossSession lossState 200 1000 hbase hpos).1
      (by rw [hexp]; norm_num)
  · exact (C7_loss_percentage_formula.2.1 lossSession lossState 130 1000 hbase hpos).2
      (by rw [hexp]; norm_num)
  · exact C7_loss_percentage_formula.2.2.1 60000 (by norm_num)

/-- Casting an integer percentage clamped at 0 into the rationals keeps it
in [0, 100) when the clamped value is below 100. -/
theorem qmax_bounds (t : Int) (ht : max 0 t < 100) :
    (0 : ℚ) ≤ (0 : ℚ) ⊔ (t : ℚ) ∧ (0 : ℚ) ⊔ (t : ℚ) < 100 := by
  refine ⟨le_max_left _ _, ?_⟩
  have h : ((max 0 t : Int) : ℚ) < 100 := by exact_mod_cast ht
  push_cast at h
  exact h

/-- When every reduction percentage, the poor-status cap and the increase
percentage are below 100 %, the adjustment factor is strictly between 0
and 2. -/
theorem get_adjustment_factor_pos_lt_two (st : session_state_t) (now : Int)
    (settings : auto_bitrate_settings_t)
    (hs : max 0 settings.decrease_severe_pct < 100)
    (hm : max 0 settings.decrease_moderate_pct < 100)
    (hd : max 0 settings.decrease_mild_pct < 100)
    (hc : max 0 settings.poor_status_cap_pct < 100)
    (hi : max 0 settings.increase_good_pct < 100) :
    0 < get_adjustment_factor st now settings ∧
      get_adjustment_factor st now settings < 2 := by
  obtain ⟨hs1, hs2⟩ := qmax_bounds _ hs
  obtain ⟨hm1, hm2⟩ := qmax_bounds _ hm
  obtain ⟨hd1, hd2⟩ := qmax_bounds _ hd
  obtain ⟨hc1, hc2⟩ := qmax_bounds _ hc
  obtain ⟨hi1, hi2⟩ := qmax_bounds _ hi
  unfold get_adjustment_factor
  dsimp only
  refine ⟨?_, ?_⟩ <;>
    · split_ifs <;> dsimp only <;> (try split_ifs) <;>
        (try simp only [lt_min_iff, min_lt_iff, lt_inf_iff, inf_lt_iff]) <;>
        (try push_cast) <;>
        first
          | linarith
          | (constructor <;> linarith)

/-- A `false`/`true` conditional equals `true` exactly when its condition
fails. -/
theorem ite_false_true_iff (P : Prop) [Decidable P] :
    ((if P then false else true) = true) ↔ ¬ P := by
  by_cases h : P <;> simp [h]

/-- Once the pacing gate has passed, `should_adjust_bitrate` is true
exactly when the significance test of `src/auto_bitrate.cpp` lines 104-107
does not reject the factor. -/
theorem should_adjust_char (session : session_t) (st : session_state_t)
    (now : Int) (settings : auto_bitrate_settings_t)
    (hE : session.auto_bitrate_enabled = true)
    (hgate : ¬ (now - st.last_adjustment_time <
      (if settings.adjustment_interval_ms ≤ 0 then 3000
       else settings.adjustment_interval_ms))) :
    should_adjust_bitrate session (some st) now settings = true ↔
      ¬ (((if settings.min_adjustment_pct < 0 then 5 else settings.min_adjustment_pct) = 0 ∧
            get_adjustment_factor st now settings = 1) ∨
          ((if settings.min_adjustment_pct < 0 then 5 else settings.min_adjustment_pct) > 0 ∧
            |get_adjustment_factor st now settings - 1| <
              (((if settings.min_adjustment_pct < 0 then 5
                 else settings.min_adjustment_pct) : Int) : ℚ) / 100)) := by
  unfold should_adjust_bitrate
  rw [hE]
  dsimp only [Bool.not_true]
  rw [if_neg (by simp), if_neg hgate]
  exact ite_false_true_iff _

/-- C5: once the interval gate has passed, `should_adjust_bitrate` returns
true iff the factor deviates from 1.0 by at least `min_adjustment_pct`/100
(for a positive effective percentage, default 5 %); `min_adjustment_pct =
0` admits any factor different from exactly 1.0; `min_adjustment_pct =
100` disables adjustments whenever the reduction, cap and increase
percentages are below 100 % (as they are by default). -/
theorem C5_min_adjustment_threshold :
    (∀ (session : session_t) (st : session_state_t) (now : Int)
        (settings : auto_bitrate_settings_t),
        session.auto_bitrate_enabled = true →
        (if settings.adjustment_interval_ms ≤ 0 then 3000
         else settings.adjustment_interval_ms) ≤ now - st.last_adjustment_time →
        (0 < (if settings.min_adjustment_pct < 0 then 5
              else settings.min_adjustment_pct) →
          (should_adjust_bitrate session (some st) now settings = true ↔
            (((if settings.min_adjustment_pct < 0 then 5
               else settings.min_adjustment_pct) : Int) : ℚ) / 100 ≤
              |get_adjustment_factor st now settings - 1|)) ∧
        (settings.min_adjustment_pct = 0 →
          (should_adjust_bitrate session (some st) now settings = true ↔
            get_adjustment_factor st now settings ≠ 1))) ∧
      (∀ (session : session_t) (st : session_state_t) (now : Int)
          (settings : auto_bitrate_settings_t),
          settings.min_adjustment_pct = 100 →
          max 0 settings.decrease_severe_pct < 100 →
          max 0 settings.decrease_moderate_pct < 100 →
          max 0 settings.decrease_mild_pct < 100 →
          max 0 settings.poor_status_cap_pct < 100 →
          max 0 settings.increase_good_pct < 100 →
          should_adjust_bitrate session (some st) now settings = false) := by
  constructor
  · intro session st now settings hE hgate
    have hchar := should_adjust_char session st now settings hE (not_lt.mpr hgate)
    constructor
    · intro hpos
      rw [hchar]
      simp only [hpos.ne', false_and, false_or]
      constructor
      · intro hn
        by_contra hq
        push_neg at hq
        exact hn ⟨hpos, hq⟩
      · intro hq
        rintro ⟨-, hlt⟩
        exact absurd hq (not_le.mpr hlt)
    · intro h0
      rw [hchar]
      have hz : (if settings.min_adjustment_pct < 0 then 5
          else settings.min_adjustment_pct) = 0 := by
        rw [h0]
        norm_num
      rw [hz]
      simp
  · intro session st now settings h100 hs hm hd hc hi
    by_cases hgate : now - st.last_adjustment_time <
        (if settings.adjustment_interval_ms ≤ 0 then 3000
         else settings.adjustment_interval_ms)
    · exact should_adjust_gate_closed session st now settings hgate
    · cases hEc : session.auto_bitrate_enabled with
      | false => simp [should_adjust_bitrate, hEc]
      | true =>
        obtain ⟨hf1, hf2⟩ := get_adjustment_factor_pos_lt_two st now settings hs hm hd hc hi
        have hchar := should_adjust_char session st now settings hEc hgate
        have hif : (if settings.min_adjustment_pct < 0 then 5
            else settings.min_adjustment_pct) = 100 := by
          rw [h100]
          norm_num
        have habs : |get_adjustment_factor st now settings - 1| < 1 :=
          abs_sub_lt_iff.mpr ⟨by linarith, by linarith⟩
        have hP : ((if settings.min_adjustment_pct < 0 then 5
              else settings.min_adjustment_pct) = 0 ∧
              get_adjustment_factor st now settings = 1) ∨
            ((if settings.min_adjustment_pct < 0 then 5
              else settings.min_adjustment_pct) > 0 ∧
              |get_adjustment_factor st now settings - 1| <
                (((if settings.min_adjustment_pct < 0 then 5
                   else settings.min_adjustment_pct) : Int) : ℚ) / 100) := by
          right
          rw [hif]
          refine ⟨by norm_num, ?_⟩
          have h1 : (((100 : Int)) : ℚ) / 100 = 1 := by norm_num
          rw [h1]
          exact habs
        cases hsb : should_adjust_bitrate session (some st) now settings with
        | false => rfl
        | true => exact absurd hP (hchar.mp hsb)

/-- C5 witness: the threshold characterization instantiated at the
severe-loss scenario (default 5 % threshold), and the disabling boundary
with `min_adjustment_pct = 100`. -/
theorem C5_witness :
    (should_adjust_bitrate sevSession (some sevState1) 4000 default_settings = true ↔
      (((if default_settings.min_adjustment_pct < 0 then 5
         else default_settings.min_adjustment_pct) : Int) : ℚ) / 100 ≤
        |get_adjustment_factor sevState1 4000 default_settings - 1|) ∧
      should_adjust_bitrate sevSession (some sevState1) 4000
          { default_settings with min_adjustment_pct := 100 } = false := by
  constructor
  · exact (C5_min_adjustment_threshold.1 sevSession sevState1 4000 default_settings rfl
      (by norm_num [default_settings, sevState1, sevState0])).1
      (by norm_num [default_settings])
  · exact C5_min_adjustment_threshold.2 sevSession sevState1 4000
      { default_settings with min_adjustment_pct := 100 } rfl
      (by norm_num [default_settings]) (by norm_num [default_settings])
      (by norm_num [default_settings]) (by norm_num [default_settings])
      (by norm_num [default_settings])
